import Mathlib

/-!
Shallow embedding of the node-nest polling program (src/unnamed/part_000 and
src/index.js): the `nest` endpoint-resolution loop, the endpoint cache
`dynamicNestConfig`, and the per-cycle telemetry extraction / InfluxDB point
construction performed in the `setInterval` callback.

Strings are modelled as Lean `String` (a list of characters); the JavaScript
string operations used by the source (`String.prototype.replace` with a string
pattern, which replaces only the first occurrence, and `String.prototype.split`
on a separator character) are given structurally recursive definitions below.
-/

namespace NodeNest

/-- `hasStart pat l` is true when the character list `l` begins with `pat`. -/
def hasStart : List Char → List Char → Bool
  | [], _ => true
  | _ :: _, [] => false
  | p :: ps, c :: cs => p == c && hasStart ps cs

/-- JavaScript `s.replace(pat, repl)` with a string pattern: replace the first
occurrence of `pat` (if any), scanning left to right. -/
def replaceFirstChars (pat repl : List Char) : List Char → List Char
  | [] => []
  | c :: cs =>
    if hasStart pat (c :: cs) then repl ++ (c :: cs).drop pat.length
    else c :: replaceFirstChars pat repl cs

/-- JavaScript `s.replace(pat, repl)` lifted to `String`. -/
def jsReplaceFirst (s pat repl : String) : String :=
  ⟨replaceFirstChars pat.data repl.data s.data⟩

/-- JavaScript `s.split(sep)` for a one-character separator: split on every
occurrence; an empty string yields `[""]`. -/
def splitOnSep (sep : Char) : List Char → List (List Char)
  | [] => [[]]
  | c :: cs =>
    if c == sep then [] :: splitOnSep sep cs
    else
      match splitOnSep sep cs with
      | [] => [[c]]
      | g :: gs => (c :: g) :: gs

/-- `DEFAULT_NEST_URL` from the source. -/
def DEFAULT_NEST_URL : String := "developer-api.nest.com"

/-- `DEFAULT_NEST_PORT` from the source (a JavaScript number). -/
def DEFAULT_NEST_PORT : Nat := 443

/-- The mutable `dynamicNestConfig` object: `host` and `port` are `null`
(modelled `none`) until a redirect stores strings into them. The port taken
from a `Location` header is a string in the source, so the cached port is a
`String` here as well. -/
structure EndpointCache where
  host : Option String
  port : Option String
deriving DecidableEq, Repr

/-- JavaScript `v || d` for a string-or-null value `v`: `null` and the empty
string are falsy, any other string is returned unchanged. -/
def jsOr (v : Option String) (d : String) : String :=
  match v with
  | none => d
  | some s => if s = "" then d else s

/-- The port actually passed to `https.request`: the default is the number
`443`, a cached redirect port is a string. -/
inductive JsPort
  | num (n : Nat)
  | str (s : String)
deriving DecidableEq, Repr

/-- `url = dynamicNestConfig.host || DEFAULT_NEST_URL` (line 184). -/
def resolveHost (c : EndpointCache) : String :=
  jsOr c.host DEFAULT_NEST_URL

/-- `port = dynamicNestConfig.port || DEFAULT_NEST_PORT` (line 188): a cached
string port is used as-is; `null` or an empty string falls back to `443`. -/
def resolvePort (c : EndpointCache) : JsPort :=
  match c.port with
  | none => .num DEFAULT_NEST_PORT
  | some s => if s = "" then .num DEFAULT_NEST_PORT else .str s

/-- One HTTP response as seen by the `https.request` callback: its status
code, its `Location` header (meaningful only on 307), and its body (the
concatenation of the `data` chunks, available at the `end` event). -/
structure HttpResponse where
  statusCode : Nat
  location : String
  body : String
deriving DecidableEq, Repr

/-- Effect of one response on `dynamicNestConfig`. On a 307 (lines 207-210)
the source computes `location = loc.replace('https://', '').split(':')` and
runs two sequential assignments: `host = location[0]` (line 209), then
`port = location[1].replace('/', '')` (line 210). When the stripped
`Location` has no `:`, the split yields a one-element array, line 209 still
assigns the host, and line 210 throws a `TypeError` (`location[1]` is
`undefined`) — leaving the port field as it was, so the cache ends
half-updated. A 404 nulls both fields (lines 218-219); every other status
leaves the cache untouched. The empty-split branch is unreachable
(`splitOnSep_ne_nil` below: a JavaScript `split` never yields an empty
array). -/
def attemptCache (cache : EndpointCache) (r : HttpResponse) : EndpointCache :=
  if r.statusCode = 307 then
    match splitOnSep ':' (jsReplaceFirst r.location "https://" "").data with
    | [] => cache
    | [p0] => ⟨some ⟨p0⟩, cache.port⟩
    | p0 :: p1 :: _ => ⟨some ⟨p0⟩, some (jsReplaceFirst ⟨p1⟩ "/" "")⟩
  else if r.statusCode = 404 then ⟨none, none⟩
  else cache

/-- The ordered `resolve` calls made while handling one response: statuses
307, 404 and 429 call `resolve(null)` synchronously in the response callback
(lines 214, 223, 228); the `end` event then calls `resolve(responseString)`
(line 239). A promise keeps only its first resolution. -/
def attemptResolutions (r : HttpResponse) : List (Option String) :=
  (if r.statusCode = 307 ∨ r.statusCode = 404 ∨ r.statusCode = 429
   then [none] else [])
    ++ [some r.body]

/-- The value the attempt's promise settles with: the first resolution wins.
`none` models `null`; `some s` models the response body (parsed by
`JSON.parse` when non-empty, which for the JSON-object payloads of this API
is truthy exactly when the body is non-empty). -/
def attemptData (r : HttpResponse) : Option String :=
  (attemptResolutions r).headD none

/-- A response whose attempt resolves falsy data, making `nest` recurse
(line 249-250): a 307, 404 or 429, or any response with an empty body. -/
def isRetrySignal (r : HttpResponse) : Bool :=
  match attemptData r with
  | none => true
  | some s => s = ""

/-- How a run of the `nest` function can fail: `redirectCount > 10` throws
`'[NestAPI] Redirected too many times'` (lines 178-180); `noResponse` is the
model's marker for running out of scripted responses. -/
inductive NestError
  | tooManyRedirects
  | noResponse
deriving DecidableEq, Repr

/-- The `nest` resolution loop over a scripted list of responses, carrying the
`dynamicNestConfig` state and the `redirectCount` argument. Mirrors lines
175-255: throw past 10 attempts, otherwise issue the request, apply the
response's cache effect, and in the final `.then` either return truthy data or
recurse with `redirectCount + 1`. -/
def nestLoop : EndpointCache → List HttpResponse → Nat → Except NestError String
  | _, [], count =>
    if count > 10 then .error .tooManyRedirects else .error .noResponse
  | cache, r :: rest, count =>
    if count > 10 then .error .tooManyRedirects
    else
      match attemptData r with
      | none => nestLoop (attemptCache cache r) rest (count + 1)
      | some s =>
        if s = "" then nestLoop (attemptCache cache r) rest (count + 1)
        else .ok s

/-- The `(host, port)` pair of each request the loop issues, in order: every
attempt re-reads `dynamicNestConfig` (with defaults for falsy fields) because
the recursive call is `nest(null, null, redirectCount + 1)`. -/
def nestRequests : EndpointCache → List HttpResponse → Nat → List (String × JsPort)
  | _, [], _ => []
  | cache, r :: rest, count =>
    if count > 10 then []
    else
      (resolveHost cache, resolvePort cache) ::
        (match attemptData r with
         | none => nestRequests (attemptCache cache r) rest (count + 1)
         | some s =>
           if s = "" then nestRequests (attemptCache cache r) rest (count + 1)
           else [])

/-- A `wheres` entry of a structure: only its display `name` is read. -/
structure WhereRec where
  name : String
deriving DecidableEq, Repr

/-- A `structures` entry: its `wheres` map, as a JavaScript object modelled by
an association list keyed by where-id. -/
structure StructureRec where
  wheres : List (String × WhereRec)
deriving DecidableEq, Repr

/-- The fields of one thermostat record that the extraction reads. Numeric
JSON values are carried verbatim into the emitted points, so they are
modelled by `Int`. -/
structure Device where
  device_id : String
  name : String
  structure_id : String
  where_id : String
  ambient_temperature_f : Int
  target_temperature_f : Int
  target_temperature_high_f : Int
  target_temperature_low_f : Int
  humidity : Int
  hvac_mode : String
  hvac_state : String
  is_online : Bool
  has_fan : Bool
  has_leaf : Bool
deriving DecidableEq, Repr

/-- JavaScript property access `m[k]` on an object modelled by an association
list: the first matching key wins, a missing key is `undefined` (`none`). -/
def jsLookup {α : Type} : List (String × α) → String → Option α
  | [], _ => none
  | (k0, v) :: rest, k => if k0 = k then some v else jsLookup rest k

/-- An InfluxDB field value: numeric or string. -/
inductive FieldVal
  | num (n : Int)
  | str (s : String)
deriving DecidableEq, Repr

/-- One point passed to `influxdb.writePoints`. -/
structure Point where
  measurement : String
  tags : List (String × String)
  fields : List (String × FieldVal)
deriving DecidableEq, Repr

/-- Field lookup inside a point. -/
def fieldVal (p : Point) (k : String) : Option FieldVal :=
  jsLookup p.fields k

/-- JavaScript `b ? 1 : 0`. -/
def b01 (b : Bool) : Int := if b then 1 else 0

/-- JavaScript `s == t ? 1 : 0` for strings. -/
def oneHot (s t : String) : Int := if s = t then 1 else 0

/-- The `sensor.temperature.reading` point of part_000 (lines 118-129), with
its fields in source order. -/
def temperaturePoint (d : Device) (room : String) : Point :=
  { measurement := "sensor.temperature.reading"
    tags := [("device_id", d.device_id), ("room", room)]
    fields := [("ambient", .num d.ambient_temperature_f),
               ("target_high", .num d.target_temperature_high_f),
               ("target_low", .num d.target_temperature_low_f),
               ("target", .num d.target_temperature_f)] }

/-- The `sensor.temperature.reading` point of the src/index.js variant
(lines 104-114): no `target` field. -/
def temperaturePointIndex (d : Device) (room : String) : Point :=
  { measurement := "sensor.temperature.reading"
    tags := [("device_id", d.device_id), ("room", room)]
    fields := [("ambient", .num d.ambient_temperature_f),
               ("target_high", .num d.target_temperature_high_f),
               ("target_low", .num d.target_temperature_low_f)] }

/-- The `sensor.humidity.reading` point (lines 130-138). -/
def humidityPoint (d : Device) (room : String) : Point :=
  { measurement := "sensor.humidity.reading"
    tags := [("device_id", d.device_id), ("room", room)]
    fields := [("humidity", .num d.humidity)] }

/-- The `device.state.reading` point of part_000 (lines 139-161), fields in
source order. -/
def deviceStatePoint (d : Device) (room : String) : Point :=
  { measurement := "device.state.reading"
    tags := [("device_id", d.device_id), ("room", room), ("device_type", "nest")]
    fields := [("fan", .num (b01 d.has_fan)),
               ("leaf", .num (b01 d.has_leaf)),
               ("mode", .str d.hvac_mode),
               ("state", .str d.hvac_state),
               ("online", .num (b01 d.is_online)),
               ("mode_off", .num (oneHot d.hvac_mode "off")),
               ("mode_heat", .num (oneHot d.hvac_mode "heat")),
               ("mode_cool", .num (oneHot d.hvac_mode "cool")),
               ("mode_heat_cool", .num (oneHot d.hvac_mode "heat-cool")),
               ("mode_eco", .num (oneHot d.hvac_mode "eco")),
               ("state_off", .num (oneHot d.hvac_state "off")),
               ("state_cooling", .num (oneHot d.hvac_state "cooling")),
               ("state_heating", .num (oneHot d.hvac_state "heating"))] }

/-- The one `writePoints` batch emitted for a device in part_000. -/
def devicePoints (d : Device) (room : String) : List Point :=
  [temperaturePoint d room, humidityPoint d room, deviceStatePoint d room]

/-- The structure/where lookups of lines 113-114 resolved to the room name:
`data.structures[device.structure_id].wheres[device.where_id].name`.
`none` when either step hits `undefined` (where the source throws). -/
def resolvedRoom (structures : List (String × StructureRec)) (d : Device) :
    Option String :=
  match jsLookup structures d.structure_id with
  | none => none
  | some st =>
    match jsLookup st.wheres d.where_id with
    | none => none
    | some w => some w.name

/-- The per-cycle device loop (lines 110-165): walk the thermostats in order;
for each, resolve the structure and where records and emit the device's
`writePoints` batch. A failed lookup makes line 114 or a tag access throw a
`TypeError`, which aborts the loop (the rejection is caught at the scheduler's
`.catch`). Result: the batches actually issued before any throw, and whether
the cycle aborted. -/
def cycleWrites (structures : List (String × StructureRec)) :
    List (String × Device) → List (List Point) × Bool
  | [] => ([], false)
  | (_, d) :: rest =>
    match resolvedRoom structures d with
    | none => ([], true)
    | some room =>
      let out := cycleWrites structures rest
      (devicePoints d room :: out.1, out.2)

/-- A sample thermostat record used to instantiate theorems on concrete
inputs. -/
def sampleDevice : Device :=
  { device_id := "d1", name := "Hallway", structure_id := "s1", where_id := "w1"
    ambient_temperature_f := 70, target_temperature_f := 72
    target_temperature_high_f := 75, target_temperature_low_f := 68
    humidity := 45, hvac_mode := "heat", hvac_state := "heating"
    is_online := true, has_fan := true, has_leaf := false }

/-- A thermostat whose `structure_id` resolves to nothing in
`sampleStructures`. -/
def orphanDevice : Device :=
  { sampleDevice with device_id := "d2", structure_id := "missing" }

/-- A sample `structures` map with one structure and one where. -/
def sampleStructures : List (String × StructureRec) :=
  [("s1", ⟨[("w1", ⟨"Living Room"⟩)]⟩)]

/-! ### Helper lemmas about the attempt classification and the loop -/

/-- A 307, 404 or 429 resolves `null` before the body arrives. -/
theorem attemptData_special {r : HttpResponse}
    (h : r.statusCode = 307 ∨ r.statusCode = 404 ∨ r.statusCode = 429) :
    attemptData r = none := by
  unfold attemptData attemptResolutions
  rw [if_pos h]
  rfl

/-- Any other status resolves with the response body. -/
theorem attemptData_plain {r : HttpResponse}
    (h : ¬(r.statusCode = 307 ∨ r.statusCode = 404 ∨ r.statusCode = 429)) :
    attemptData r = some r.body := by
  unfold attemptData attemptResolutions
  rw [if_neg h]
  rfl

/-- A settled attempt value comes from the body. -/
theorem attemptData_eq_some {r : HttpResponse} {s : String}
    (h : attemptData r = some s) : s = r.body := by
  unfold attemptData attemptResolutions at h
  by_cases hs : r.statusCode = 307 ∨ r.statusCode = 404 ∨ r.statusCode = 429
  · rw [if_pos hs] at h
    simp at h
  · rw [if_neg hs] at h
    simp at h
    exact h.symm

/-- A non-retry attempt yields exactly the (non-empty) body. -/
theorem isRetrySignal_eq_false {r : HttpResponse} (h : isRetrySignal r = false) :
    attemptData r = some r.body ∧ r.body ≠ "" := by
  unfold isRetrySignal at h
  cases hd : attemptData r with
  | none => rw [hd] at h; simp at h
  | some s =>
    rw [hd] at h
    simp at h
    have hb := attemptData_eq_some hd
    subst hb
    exact ⟨rfl, h⟩

/-- A null attempt value is a retry signal. -/
theorem isRetrySignal_of_none {r : HttpResponse} (h : attemptData r = none) :
    isRetrySignal r = true := by
  unfold isRetrySignal
  rw [h]

/-- Unfolding `nestLoop` on a scripted response. -/
theorem nestLoop_cons (cache : EndpointCache) (r : HttpResponse)
    (rest : List HttpResponse) (count : Nat) :
    nestLoop cache (r :: rest) count =
      if count > 10 then .error .tooManyRedirects
      else
        match attemptData r with
        | none => nestLoop (attemptCache cache r) rest (count + 1)
        | some s =>
          if s = "" then nestLoop (attemptCache cache r) rest (count + 1)
          else .ok s := rfl

/-- Past the redirect ceiling the loop fails no matter the responses. -/
theorem nestLoop_over (cache : EndpointCache) (rs : List HttpResponse)
    {count : Nat} (h : count > 10) :
    nestLoop cache rs count = .error .tooManyRedirects := by
  cases rs with
  | nil => unfold nestLoop; rw [if_pos h]
  | cons r rest => rw [nestLoop_cons, if_pos h]

/-- A retry signal makes the loop recurse with the updated cache and
incremented counter. -/
theorem nestLoop_retryStep (cache : EndpointCache) (r : HttpResponse)
    (rest : List HttpResponse) (count : Nat) (hc : count ≤ 10)
    (hr : isRetrySignal r = true) :
    nestLoop cache (r :: rest) count
      = nestLoop (attemptCache cache r) rest (count + 1) := by
  rw [nestLoop_cons, if_neg (by omega)]
  unfold isRetrySignal at hr
  cases hd : attemptData r with
  | none => rfl
  | some s =>
    rw [hd] at hr
    simp at hr
    simp [hr]

/-- A run of retry signals is consumed one per attempt, folding its cache
effects, as long as the counter stays within the ceiling plus one. -/
theorem nestLoop_retrySteps (retries : List HttpResponse) :
    ∀ (cache : EndpointCache) (count : Nat) (rest : List HttpResponse),
      (∀ r ∈ retries, isRetrySignal r = true) → count + retries.length ≤ 11 →
      nestLoop cache (retries ++ rest) count
        = nestLoop (retries.foldl attemptCache cache) rest (count + retries.length) := by
  induction retries with
  | nil =>
    intro cache count rest _ _
    simp
  | cons r rs ih =>
    intro cache count rest hall hc
    have h1 : isRetrySignal r = true := hall r (by simp)
    have hc1 : count ≤ 10 := by simp at hc; omega
    rw [List.cons_append, nestLoop_retryStep cache r (rs ++ rest) count hc1 h1,
      ih (attemptCache cache r) (count + 1) rest
        (fun x hx => hall x (by simp [hx])) (by simp at hc ⊢; omega),
      List.foldl_cons]
    congr 1
    simp
    omega

/-- Unfolding `nestRequests` on a scripted response. -/
theorem nestRequests_cons (cache : EndpointCache) (r : HttpResponse)
    (rest : List HttpResponse) (count : Nat) :
    nestRequests cache (r :: rest) count =
      if count > 10 then []
      else
        (resolveHost cache, resolvePort cache) ::
          (match attemptData r with
           | none => nestRequests (attemptCache cache r) rest (count + 1)
           | some s =>
             if s = "" then nestRequests (attemptCache cache r) rest (count + 1)
             else []) := rfl

/-- A retry signal issues its request, then the trace continues with the
updated cache. -/
theorem nestRequests_retryStep (cache : EndpointCache) (r : HttpResponse)
    (rest : List HttpResponse) (count : Nat) (hc : count ≤ 10)
    (hr : isRetrySignal r = true) :
    nestRequests cache (r :: rest) count
      = (resolveHost cache, resolvePort cache)
          :: nestRequests (attemptCache cache r) rest (count + 1) := by
  rw [nestRequests_cons, if_neg (by omega)]
  unfold isRetrySignal at hr
  cases hd : attemptData r with
  | none => rfl
  | some s =>
    rw [hd] at hr
    simp at hr
    simp [hr]
/-! ### Claim theorems -/

/-- C1: a sequence of at most 10 consecutive retry signals (redirect, reset,
rate-limit, or empty body) followed by a response with a non-empty data
payload makes the resolution loop terminate returning that payload; a
sequence opening with more than 10 consecutive retry signals fails with the
`TooManyRedirects` error instead of retrying further. -/
theorem nest_bounded_resolution (cache : EndpointCache)
    (retries rest : List HttpResponse) (d : HttpResponse)
    (hall : ∀ r ∈ retries, isRetrySignal r = true) :
    (retries.length ≤ 10 → isRetrySignal d = false →
      nestLoop cache (retries ++ d :: rest) 0 = .ok d.body) ∧
    (retries.length = 11 →
      nestLoop cache (retries ++ rest) 0 = .error .tooManyRedirects) := by
  constructor
  · intro hlen hd
    rw [nestLoop_retrySteps retries cache 0 (d :: rest) hall (by omega)]
    obtain ⟨hdata, hbody⟩ := isRetrySignal_eq_false hd
    rw [nestLoop_cons, if_neg (by omega), hdata]
    simp [hbody]
  · intro hlen
    rw [nestLoop_retrySteps retries cache 0 rest hall (by omega)]
    exact nestLoop_over _ _ (by omega)

/-- C1 witness: one redirect retry then a data response resolves to the
payload. -/
theorem nest_bounded_resolution_witness :
    nestLoop ⟨none, none⟩
      [⟨307, "https://alt:9553/", ""⟩, ⟨200, "", "payload"⟩] 0 = .ok "payload" :=
  (nest_bounded_resolution ⟨none, none⟩ [⟨307, "https://alt:9553/", ""⟩] []
    ⟨200, "", "payload"⟩ (by decide)).1 (by decide) (by decide)

/-- C3: a 404 clears both fields of the endpoint cache, and the immediately
following retry attempt issues its request against the configured default
host `developer-api.nest.com` and default port `443`. -/
theorem reset_clears_cache_and_uses_defaults (cache : EndpointCache)
    (r r2 : HttpResponse) (rest : List HttpResponse) (count : Nat)
    (h404 : r.statusCode = 404) (hc : count ≤ 9) :
    attemptCache cache r = ⟨none, none⟩ ∧
    (nestRequests cache (r :: r2 :: rest) count)[1]?
      = some (DEFAULT_NEST_URL, JsPort.num 443) := by
  have hd : attemptData r = none := attemptData_special (Or.inr (Or.inl h404))
  have hcc : attemptCache cache r = ⟨none, none⟩ := by
    unfold attemptCache
    rw [if_neg (by omega), if_pos h404]
  refine ⟨hcc, ?_⟩
  rw [nestRequests_retryStep cache r (r2 :: rest) count (by omega)
      (isRetrySignal_of_none hd), hcc,
    nestRequests_cons ⟨none, none⟩ r2 rest (count + 1), if_neg (by omega)]
  simp [resolveHost, resolvePort, jsOr, DEFAULT_NEST_PORT]

/-- C3 witness: a 404 then a data response, starting from a cached redirect
target. -/
theorem reset_clears_cache_and_uses_defaults_witness :
    attemptCache ⟨some "alt", some "9553"⟩ ⟨404, "", ""⟩ = ⟨none, none⟩ ∧
    (nestRequests ⟨some "alt", some "9553"⟩
        [⟨404, "", ""⟩, ⟨200, "", "payload"⟩] 0)[1]?
      = some (DEFAULT_NEST_URL, JsPort.num 443) :=
  reset_clears_cache_and_uses_defaults ⟨some "alt", some "9553"⟩
    ⟨404, "", ""⟩ ⟨200, "", "payload"⟩ [] 0 rfl (by omega)
/-- C5: a 429 leaves both fields of the endpoint cache exactly as they were,
while still signalling a retry (the attempt resolves null). -/
theorem rate_limit_preserves_cache (cache : EndpointCache) (r : HttpResponse)
    (h : r.statusCode = 429) :
    attemptCache cache r = cache ∧ attemptData r = none := by
  refine ⟨?_, attemptData_special (Or.inr (Or.inr h))⟩
  unfold attemptCache
  rw [if_neg (by omega), if_neg (by omega)]

/-- C5 witness: a 429 against a populated cache. -/
theorem rate_limit_preserves_cache_witness :
    attemptCache ⟨some "alt", some "9553"⟩ ⟨429, "", ""⟩
        = ⟨some "alt", some "9553"⟩ ∧
    attemptData ⟨429, "", ""⟩ = none :=
  rate_limit_preserves_cache ⟨some "alt", some "9553"⟩ ⟨429, "", ""⟩ rfl

/-- C7 counterexample: a 307 whose `Location` header contains no `:` makes
line 209 assign the host and line 210 throw before the port assignment, so
from the empty cache the source reaches `{host: "althost/", port: null}` — a
cache state with exactly one field set, violating the claimed invariant. -/
theorem cache_half_update_cex :
    attemptCache ⟨none, none⟩ ⟨307, "https://althost/", ""⟩
        = ⟨some "althost/", none⟩ ∧
    ¬(((attemptCache ⟨none, none⟩ ⟨307, "https://althost/", ""⟩).host = none) ↔
      ((attemptCache ⟨none, none⟩ ⟨307, "https://althost/", ""⟩).port = none)) := by
  decide

/-- C7 amended: the 404 reset clears both cache fields together, and a 307
whose `Location` contains a `:` (its stripped form splits into at least two
parts) assigns both fields together, so those mutations preserve the
both-set-or-both-unset invariant; a 307 whose `Location` lacks a `:` assigns
the host and then throws before the port assignment, reaching a state with
exactly one field set. -/
theorem cache_both_or_neither_guarded (cache : EndpointCache) (r : HttpResponse)
    (h : cache.host = none ↔ cache.port = none)
    (hloc : r.statusCode = 307 →
      2 ≤ (splitOnSep ':' (jsReplaceFirst r.location "https://" "").data).length) :
    ((attemptCache cache r).host = none ↔ (attemptCache cache r).port = none) := by
  unfold attemptCache
  by_cases h307 : r.statusCode = 307
  · rw [if_pos h307]
    have h2 := hloc h307
    cases hs : splitOnSep ':' (jsReplaceFirst r.location "https://" "").data with
    | nil => exact h
    | cons p0 tail =>
      cases tail with
      | nil => rw [hs] at h2; simp at h2
      | cons p1 rest => simp
  · rw [if_neg h307]
    by_cases h404 : r.statusCode = 404
    · rw [if_pos h404]
    · rw [if_neg h404]; exact h

/-- C7 amended witness: the invariant survives a colon-containing redirect
from the empty cache. -/
theorem cache_both_or_neither_guarded_witness :
    ((attemptCache ⟨none, none⟩ ⟨307, "https://alt:9553/", ""⟩).host = none ↔
      (attemptCache ⟨none, none⟩ ⟨307, "https://alt:9553/", ""⟩).port = none) :=
  cache_both_or_neither_guarded ⟨none, none⟩ ⟨307, "https://alt:9553/", ""⟩
    (by simp) (by decide)

/-- C8: a response with a non-redirect, non-404, non-429 status and an empty
body is treated identically to a retry signal: the cache is untouched, the
attempt counter is incremented and the request is reissued from step 1,
reading host/port from the cache (or defaults), rather than returning the
empty payload to the caller. -/
theorem empty_body_retries (cache : EndpointCache) (r r2 : HttpResponse)
    (rest : List HttpResponse) (count : Nat)
    (h307 : r.statusCode ≠ 307) (h404 : r.statusCode ≠ 404)
    (h429 : r.statusCode ≠ 429) (hbody : r.body = "") :
    isRetrySignal r = true ∧
    attemptCache cache r = cache ∧
    (count ≤ 10 → nestLoop cache (r :: r2 :: rest) count
        = nestLoop cache (r2 :: rest) (count + 1)) ∧
    (count ≤ 9 → (nestRequests cache (r :: r2 :: rest) count)[1]?
        = some (resolveHost cache, resolvePort cache)) := by
  have hd : attemptData r = some r.body :=
    attemptData_plain (by push_neg; exact ⟨h307, h404, h429⟩)
  have hrs : isRetrySignal r = true := by
    unfold isRetrySignal
    rw [hd]
    simp [hbody]
  have hcc : attemptCache cache r = cache := by
    unfold attemptCache
    rw [if_neg h307, if_neg h404]
  refine ⟨hrs, hcc, ?_, ?_⟩
  · intro hc
    rw [nestLoop_retryStep cache r (r2 :: rest) count hc hrs, hcc]
  · intro hc
    rw [nestRequests_retryStep cache r (r2 :: rest) count (by omega) hrs, hcc,
      nestRequests_cons cache r2 rest (count + 1), if_neg (by omega)]
    simp

/-- C8 witness: a 200 with empty body against a populated cache retries from
the cached endpoint. -/
theorem empty_body_retries_witness :
    isRetrySignal ⟨200, "", ""⟩ = true ∧
    attemptCache ⟨some "alt", some "9553"⟩ ⟨200, "", ""⟩
        = ⟨some "alt", some "9553"⟩ ∧
    (0 ≤ 10 → nestLoop ⟨some "alt", some "9553"⟩
        [⟨200, "", ""⟩, ⟨200, "", "payload"⟩] 0
      = nestLoop ⟨some "alt", some "9553"⟩ [⟨200, "", "payload"⟩] (0 + 1)) ∧
    (0 ≤ 9 → (nestRequests ⟨some "alt", some "9553"⟩
        [⟨200, "", ""⟩, ⟨200, "", "payload"⟩] 0)[1]?
      = some (resolveHost ⟨some "alt", some "9553"⟩,
          resolvePort ⟨some "alt", some "9553"⟩)) :=
  empty_body_retries ⟨some "alt", some "9553"⟩ ⟨200, "", ""⟩
    ⟨200, "", "payload"⟩ [] 0 (by decide) (by decide) (by decide) rfl

/-- C10: a 404 or 429 resolves the attempt to the no-data retry signal before
the body is consumed: the promise's first resolution is `null`, the body's
later resolution is ignored, so even a non-empty body is never returned as
data and the loop retries. -/
theorem status_fixed_before_body (cache : EndpointCache) (r : HttpResponse)
    (rest : List HttpResponse) (count : Nat)
    (h : r.statusCode = 404 ∨ r.statusCode = 429) :
    attemptResolutions r = [none, some r.body] ∧
    attemptData r = none ∧
    (count ≤ 10 → nestLoop cache (r :: rest) count
        = nestLoop (attemptCache cache r) rest (count + 1)) := by
  have hsp : r.statusCode = 307 ∨ r.statusCode = 404 ∨ r.statusCode = 429 :=
    Or.inr h
  have hd : attemptData r = none := attemptData_special hsp
  refine ⟨?_, hd, ?_⟩
  · unfold attemptResolutions
    rw [if_pos hsp]
    rfl
  · intro hc
    exact nestLoop_retryStep cache r rest count hc (isRetrySignal_of_none hd)

/-- C10 witness: a 429 carrying a non-empty body still resolves null and
retries. -/
theorem status_fixed_before_body_witness :
    attemptResolutions ⟨429, "", "ignored-body"⟩
        = [none, some "ignored-body"] ∧
    attemptData ⟨429, "", "ignored-body"⟩ = none ∧
    (0 ≤ 10 → nestLoop ⟨none, none⟩
        [⟨429, "", "ignored-body"⟩, ⟨200, "", "payload"⟩] 0
      = nestLoop (attemptCache ⟨none, none⟩ ⟨429, "", "ignored-body"⟩)
          [⟨200, "", "payload"⟩] (0 + 1)) :=
  status_fixed_before_body ⟨none, none⟩ ⟨429, "", "ignored-body"⟩
    [⟨200, "", "payload"⟩] 0 (Or.inr rfl)
/-- Unfolding `cycleWrites` on the first device of the cycle. -/
theorem cycleWrites_cons (structures : List (String × StructureRec))
    (k : String) (d : Device) (rest : List (String × Device)) :
    cycleWrites structures ((k, d) :: rest) =
      match resolvedRoom structures d with
      | none => ([], true)
      | some room =>
        let out := cycleWrites structures rest
        (devicePoints d room :: out.1, out.2) := rfl

/-- C4 counterexample: in a payload with two thermostats where the first one's
`structure_id` does not resolve, the extraction loop emits nothing at all —
the remaining (fully resolvable) device is not processed, and the cycle
aborts. This refutes the claim that a failed lookup skips only that device
and continues with the rest. -/
theorem lookup_failure_aborts_cycle_cex :
    cycleWrites sampleStructures
        [("d2", orphanDevice), ("d1", sampleDevice)] = ([], true) := by
  decide

/-- C4 amended: a thermostat whose `structure_id` or `where_id` does not
resolve is fatal to the rest of the cycle: the devices before it are written,
it and every device after it are dropped, and the thrown lookup error is
caught at the scheduler boundary (so only the cycle, not the process, is
lost). -/
theorem lookup_failure_aborts_cycle (structures : List (String × StructureRec))
    (pre : List (String × Device)) (k : String) (dbad : Device)
    (rest : List (String × Device))
    (hpre : ∀ p ∈ pre, (resolvedRoom structures p.2).isSome = true)
    (hbad : resolvedRoom structures dbad = none) :
    cycleWrites structures (pre ++ (k, dbad) :: rest)
      = (pre.map (fun p =>
          devicePoints p.2 ((resolvedRoom structures p.2).getD "")), true) := by
  induction pre with
  | nil =>
    simp only [List.nil_append, List.map_nil]
    rw [cycleWrites_cons, hbad]
  | cons p ps ih =>
    obtain ⟨kp, dp⟩ := p
    have hp : (resolvedRoom structures dp).isSome = true :=
      hpre (kp, dp) (by simp)
    obtain ⟨room, hroom⟩ := Option.isSome_iff_exists.mp hp
    rw [List.cons_append, cycleWrites_cons, hroom,
      ih (fun x hx => hpre x (by simp [hx]))]
    simp [hroom]

/-- C4 amended witness: one resolvable device before the orphan is written,
then the cycle aborts. -/
theorem lookup_failure_aborts_cycle_witness :
    cycleWrites sampleStructures
        ([("d1", sampleDevice)] ++ ("d2", orphanDevice) :: [])
      = ([devicePoints sampleDevice
          ((resolvedRoom sampleStructures sampleDevice).getD "")], true) :=
  lookup_failure_aborts_cycle sampleStructures [("d1", sampleDevice)]
    "d2" orphanDevice [] (by decide) (by decide)
/-- C6: for a device with `hvac_mode = "heat"`, `hvac_state = "heating"`,
`has_fan = true` and `is_online = true`, the device-state measurement has
`mode_heat = 1` with every other mode one-hot 0, `state_heating = 1` with
every other state one-hot 0, `fan = 1` and `online = 1`; and in general,
whenever `hvac_mode` is one of the five enumerated modes and `hvac_state` one
of the three enumerated states, exactly one `mode_*` field and exactly one
`state_*` field equal 1. -/
theorem device_state_one_hot (d : Device) (room : String) :
    (d.hvac_mode = "heat" → d.hvac_state = "heating" →
     d.has_fan = true → d.is_online = true →
      fieldVal (deviceStatePoint d room) "mode_heat" = some (.num 1) ∧
      fieldVal (deviceStatePoint d room) "mode_off" = some (.num 0) ∧
      fieldVal (deviceStatePoint d room) "mode_cool" = some (.num 0) ∧
      fieldVal (deviceStatePoint d room) "mode_heat_cool" = some (.num 0) ∧
      fieldVal (deviceStatePoint d room) "mode_eco" = some (.num 0) ∧
      fieldVal (deviceStatePoint d room) "state_heating" = some (.num 1) ∧
      fieldVal (deviceStatePoint d room) "state_off" = some (.num 0) ∧
      fieldVal (deviceStatePoint d room) "state_cooling" = some (.num 0) ∧
      fieldVal (deviceStatePoint d room) "fan" = some (.num 1) ∧
      fieldVal (deviceStatePoint d room) "online" = some (.num 1)) ∧
    (d.hvac_mode ∈ (["off", "heat", "cool", "heat-cool", "eco"] : List String) →
      ([fieldVal (deviceStatePoint d room) "mode_off",
        fieldVal (deviceStatePoint d room) "mode_heat",
        fieldVal (deviceStatePoint d room) "mode_cool",
        fieldVal (deviceStatePoint d room) "mode_heat_cool",
        fieldVal (deviceStatePoint d room) "mode_eco"].count
          (some (.num 1)) = 1)) ∧
    (d.hvac_state ∈ (["off", "heating", "cooling"] : List String) →
      ([fieldVal (deviceStatePoint d room) "state_off",
        fieldVal (deviceStatePoint d room) "state_cooling",
        fieldVal (deviceStatePoint d room) "state_heating"].count
          (some (.num 1)) = 1)) := by
  refine ⟨?_, ?_, ?_⟩
  · intro hm hs hf ho
    refine ⟨?_, ?_, ?_, ?_, ?_, ?_, ?_, ?_, ?_, ?_⟩ <;>
      simp [deviceStatePoint, fieldVal, jsLookup, oneHot, b01, hm, hs, hf, ho]
  · intro hm
    simp only [List.mem_cons, List.not_mem_nil, or_false] at hm
    rcases hm with hm | hm | hm | hm | hm <;>
      simp [deviceStatePoint, fieldVal, jsLookup, oneHot, hm]
  · intro hs
    simp only [List.mem_cons, List.not_mem_nil, or_false] at hs
    rcases hs with hs | hs | hs <;>
      simp [deviceStatePoint, fieldVal, jsLookup, oneHot, hs]

/-- C6 witness: the sample heating device. -/
theorem device_state_one_hot_witness :
    (fieldVal (deviceStatePoint sampleDevice "Den") "mode_heat" = some (.num 1) ∧
     fieldVal (deviceStatePoint sampleDevice "Den") "mode_off" = some (.num 0) ∧
     fieldVal (deviceStatePoint sampleDevice "Den") "mode_cool" = some (.num 0) ∧
     fieldVal (deviceStatePoint sampleDevice "Den") "mode_heat_cool" = some (.num 0) ∧
     fieldVal (deviceStatePoint sampleDevice "Den") "mode_eco" = some (.num 0) ∧
     fieldVal (deviceStatePoint sampleDevice "Den") "state_heating" = some (.num 1) ∧
     fieldVal (deviceStatePoint sampleDevice "Den") "state_off" = some (.num 0) ∧
     fieldVal (deviceStatePoint sampleDevice "Den") "state_cooling" = some (.num 0) ∧
     fieldVal (deviceStatePoint sampleDevice "Den") "fan" = some (.num 1) ∧
     fieldVal (deviceStatePoint sampleDevice "Den") "online" = some (.num 1)) ∧
    ([fieldVal (deviceStatePoint sampleDevice "Den") "mode_off",
      fieldVal (deviceStatePoint sampleDevice "Den") "mode_heat",
      fieldVal (deviceStatePoint sampleDevice "Den") "mode_cool",
      fieldVal (deviceStatePoint sampleDevice "Den") "mode_heat_cool",
      fieldVal (deviceStatePoint sampleDevice "Den") "mode_eco"].count
        (some (.num 1)) = 1) ∧
    ([fieldVal (deviceStatePoint sampleDevice "Den") "state_off",
      fieldVal (deviceStatePoint sampleDevice "Den") "state_cooling",
      fieldVal (deviceStatePoint sampleDevice "Den") "state_heating"].count
        (some (.num 1)) = 1) :=
  ⟨(device_state_one_hot sampleDevice "Den").1 rfl rfl rfl rfl,
   (device_state_one_hot sampleDevice "Den").2.1 (by decide),
   (device_state_one_hot sampleDevice "Den").2.2 (by decide)⟩

/-- C9 counterexample: the src/index.js variant's temperature measurement
does not carry a `target` field at all, so the claim that every
`sensor.temperature.reading` written to the sink carries exactly the four
fields `ambient`, `target`, `target_high`, `target_low` fails on that
variant's writes. -/
theorem temperature_fields_cex :
    fieldVal (temperaturePointIndex sampleDevice "Den") "target" = none ∧
    (temperaturePointIndex sampleDevice "Den").fields.map Prod.fst
      ≠ ["ambient", "target", "target_high", "target_low"] := by
  decide

/-- C9 amended: in the part_000 variant the temperature measurement carries
exactly the four fields `ambient`, `target_high`, `target_low`, `target`,
populated from the device's `ambient_temperature_f`,
`target_temperature_high_f`, `target_temperature_low_f` and
`target_temperature_f`; the src/index.js variant omits `target` and carries
only the other three. -/
theorem temperature_fields_by_variant (d : Device) (room : String) :
    ((temperaturePoint d room).fields.map Prod.fst
        = ["ambient", "target_high", "target_low", "target"] ∧
      fieldVal (temperaturePoint d room) "ambient"
        = some (.num d.ambient_temperature_f) ∧
      fieldVal (temperaturePoint d room) "target"
        = some (.num d.target_temperature_f) ∧
      fieldVal (temperaturePoint d room) "target_high"
        = some (.num d.target_temperature_high_f) ∧
      fieldVal (temperaturePoint d room) "target_low"
        = some (.num d.target_temperature_low_f)) ∧
    ((temperaturePointIndex d room).fields.map Prod.fst
        = ["ambient", "target_high", "target_low"] ∧
      fieldVal (temperaturePointIndex d room) "target" = none) := by
  refine ⟨⟨rfl, ?_, ?_, ?_, ?_⟩, rfl, ?_⟩ <;>
    simp [temperaturePoint, temperaturePointIndex, fieldVal, jsLookup]
/-! ### String lemmas for the redirect `Location` parsing -/

/-- Unfolding `replaceFirstChars` on a non-empty input. -/
theorem replaceFirstChars_cons (pat repl : List Char) (c : Char) (cs : List Char) :
    replaceFirstChars pat repl (c :: cs) =
      if hasStart pat (c :: cs) then repl ++ (c :: cs).drop pat.length
      else c :: replaceFirstChars pat repl cs := rfl

/-- A list starts with itself. -/
theorem hasStart_append_self (p l : List Char) : hasStart p (p ++ l) = true := by
  induction p with
  | nil => rfl
  | cons c cs ih => simp [hasStart, ih]

/-- Replacing a pattern that the input starts with rewrites the front. -/
theorem replaceFirstChars_leading (p r l : List Char) (hp : p ≠ []) :
    replaceFirstChars p r (p ++ l) = r ++ l := by
  cases p with
  | nil => exact absurd rfl hp
  | cons c cs =>
    rw [List.cons_append, replaceFirstChars_cons, ← List.cons_append,
      if_pos (hasStart_append_self (c :: cs) l)]
    congr 1
    exact List.drop_left (c :: cs) l

/-- Unfolding `splitOnSep` on a non-empty input. -/
theorem splitOnSep_cons (sep c : Char) (cs : List Char) :
    splitOnSep sep (c :: cs) =
      if c == sep then [] :: splitOnSep sep cs
      else
        match splitOnSep sep cs with
        | [] => [[c]]
        | g :: gs => (c :: g) :: gs := rfl

/-- A split never yields an empty list of groups (a JavaScript `split`
always returns at least one element). -/
theorem splitOnSep_ne_nil (sep : Char) (l : List Char) :
    splitOnSep sep l ≠ [] := by
  cases l with
  | nil => simp [splitOnSep]
  | cons c cs =>
    rw [splitOnSep_cons]
    by_cases h : (c == sep) = true
    · rw [if_pos h]; simp
    · rw [if_neg h]
      cases splitOnSep sep cs <;> simp

/-- Splitting a list free of the separator yields that single group. -/
theorem splitOnSep_not_mem {sep : Char} {l : List Char} (h : sep ∉ l) :
    splitOnSep sep l = [l] := by
  induction l with
  | nil => rfl
  | cons c cs ih =>
    simp only [List.mem_cons, not_or] at h
    obtain ⟨h1, h2⟩ := h
    rw [splitOnSep_cons, if_neg (by simp; exact fun hc => h1 hc.symm), ih h2]

/-- Splitting at the first separator occurrence peels off the prefix group. -/
theorem splitOnSep_append {sep : Char} {l1 : List Char} (h : sep ∉ l1)
    (l2 : List Char) :
    splitOnSep sep (l1 ++ sep :: l2) = l1 :: splitOnSep sep l2 := by
  induction l1 with
  | nil =>
    rw [List.nil_append, splitOnSep_cons, if_pos (by simp)]
  | cons c cs ih =>
    simp only [List.mem_cons, not_or] at h
    obtain ⟨h1, h2⟩ := h
    rw [List.cons_append, splitOnSep_cons,
      if_neg (by simp; exact fun hc => h1 hc.symm), ih h2]

/-- Removing the first occurrence of a character that only occurs at the very
end drops exactly that final character. -/
theorem replaceFirstChars_drop_last {c : Char} {l : List Char} (h : c ∉ l) :
    replaceFirstChars [c] [] (l ++ [c]) = l := by
  induction l with
  | nil => simp [replaceFirstChars_cons, hasStart]
  | cons x xs ih =>
    simp only [List.mem_cons, not_or] at h
    obtain ⟨h1, h2⟩ := h
    rw [List.cons_append, replaceFirstChars_cons,
      if_neg (by simp [hasStart]; exact h1), ih h2]

/-- C2 counterexample: a 307 whose `Location` is
`https://alt-host:444/some/path` does not store port `"444"`: the source's
`location[1].replace('/', '')` removes only the first slash, so the cache
receives port `"444some/path"`. -/
theorem redirect_roundtrip_cex :
    attemptCache ⟨none, none⟩ ⟨307, "https://alt-host:444/some/path", ""⟩
        = ⟨some "alt-host", some "444some/path"⟩ ∧
    attemptCache ⟨none, none⟩ ⟨307, "https://alt-host:444/some/path", ""⟩
        ≠ ⟨some "alt-host", some "444"⟩ := by
  decide

/-- C2 amended: for a 307 whose `Location` header has the form
`https://<host>:<port>/` — scheme, host without `:`, port without `:` or `/`,
and a path that is just the single trailing slash — the redirect handler
stores exactly `host` and the port string in the endpoint cache. For a deeper
path (e.g. `/some/path`) the stored port keeps everything after its first
slash removed only once, so the pair does not round-trip. -/
theorem redirect_single_slash_roundtrip (cache : EndpointCache)
    (h p b : String) (hh : ':' ∉ h.data) (hp1 : ':' ∉ p.data)
    (hp2 : '/' ∉ p.data) :
    attemptCache cache ⟨307, "https://" ++ h ++ ":" ++ p ++ "/", b⟩
      = ⟨some h, some p⟩ := by
  have hl : ("https://" ++ h ++ ":" ++ p ++ "/").data
      = "https://".data ++ (h.data ++ ':' :: (p.data ++ ['/'])) := by
    simp [String.data_append]
  have e1 : jsReplaceFirst ("https://" ++ h ++ ":" ++ p ++ "/") "https://" ""
      = ⟨h.data ++ ':' :: (p.data ++ ['/'])⟩ := by
    unfold jsReplaceFirst
    rw [hl]
    congr 1
  have hsplit : splitOnSep ':' (h.data ++ ':' :: (p.data ++ ['/']))
      = [h.data, p.data ++ ['/']] := by
    rw [splitOnSep_append hh, splitOnSep_not_mem]
    intro hmem
    rcases List.mem_append.mp hmem with hm | hm
    · exact hp1 hm
    · simp at hm
  have hs2 : splitOnSep ':'
      (jsReplaceFirst ("https://" ++ h ++ ":" ++ p ++ "/") "https://" "").data
      = [h.data, p.data ++ ['/']] := by
    rw [e1]
    exact hsplit
  unfold attemptCache
  rw [if_pos rfl, hs2]
  show (⟨some ⟨h.data⟩,
      some (⟨replaceFirstChars ['/'] [] (p.data ++ ['/'])⟩ : String)⟩ : EndpointCache)
    = ⟨some h, some p⟩
  rw [replaceFirstChars_drop_last hp2]

/-- C2 amended witness: the single-slash location of the claim's shape
round-trips host and port into the cache. -/
theorem redirect_single_slash_roundtrip_witness :
    attemptCache ⟨none, none⟩ ⟨307, "https://alt-host:444/", ""⟩
      = ⟨some "alt-host", some "444"⟩ :=
  redirect_single_slash_roundtrip ⟨none, none⟩ "alt-host" "444" ""
    (by decide) (by decide) (by decide)

end NodeNest
